import Mathlib

/-!
Verification of the CloudCost estimator.

The repository ships the React frontend (src/frontend), its tests, and the
deployment infrastructure; the pricing backend (the aggregation, caching,
estimation and comparison engine described in spec.md sections 2 to 7) is not
part of the source tree.  The engine is therefore modelled here from the
specification's own words; the frontend request-building code
(src/frontend/src/services/api.ts) is embedded directly from the source.
-/

namespace CloudCost

/-- Cloud providers, from src/frontend/src/types/index.ts
(`export type CloudProvider = 'aws' | 'azure' | 'gcp'`). -/
inductive CloudProvider where
  | aws
  | azure
  | gcp
deriving DecidableEq, Repr

/-- Compute sizes, from src/frontend/src/types/index.ts. -/
inductive ComputeSize where
  | small
  | medium
  | large
  | xlarge
deriving DecidableEq, Repr

/-- Storage classes, from src/frontend/src/types/index.ts. -/
inductive StorageType where
  | standard
  | premium
  | archive
deriving DecidableEq, Repr

/-- Database engine families, from src/frontend/src/types/index.ts. -/
inductive DatabaseType where
  | sql
  | nosql
  | cache
deriving DecidableEq, Repr

/-- Database tiers, from src/frontend/src/types/index.ts. -/
inductive DatabaseTier where
  | basic
  | standard
  | premium
deriving DecidableEq, Repr

/-- Modelled from the spec: the resource kinds a line item can belong to,
in the fixed evaluation order of section 4.3 (compute, storage, database,
network, load balancer). -/
inductive ResourceKind where
  | compute
  | storage
  | database
  | network
  | loadBalancer
deriving DecidableEq, Repr

/-- Rank of a resource kind in the fixed breakdown order of spec section 4.3. -/
def kindRank : ResourceKind → Nat
  | .compute => 0
  | .storage => 1
  | .database => 2
  | .network => 3
  | .loadBalancer => 4

/-- Lowercase provider identifier, used for the lexicographic tie-break of
spec section 3 (ComparisonResult invariant). -/
def providerName : CloudProvider → String
  | .aws => "aws"
  | .azure => "azure"
  | .gcp => "gcp"

/-- Banker's (round-half-to-even) rounding of a rational to an integer,
the rounding the spec fixes in sections 3 and 8. -/
def roundHalfEven (q : ℚ) : ℤ :=
  if q - (Int.floor q : ℚ) < 1 / 2 then Int.floor q
  else if 1 / 2 < q - (Int.floor q : ℚ) then Int.floor q + 1
  else if Int.floor q % 2 = 0 then Int.floor q else Int.floor q + 1

/-- Rounding a dollar amount to the cent with banker's rounding; the spec
applies this exactly once, at the total (sections 3 and 8). -/
def roundCents (q : ℚ) : ℚ :=
  (roundHalfEven (q * 100) : ℚ) / 100

/-- Modelled from the spec: the tagged ResourceSpec variants of section 3.
Sizes, storage classes and database fields arrive as raw strings from the
request so that syntactically invalid values (such as a compute size of
"nonexistent", spec Scenario D) are representable. -/
inductive ResourceSpec where
  | compute (size : String) (quantity : Nat) (hours_per_month : Nat)
  | storage (storage_class : String) (size_gb : Nat)
  | database (db_type : String) (tier : String) (storage_gb : Nat) (backup_retention_days : Nat)
  | network (egress_gb : Nat)
  | load_balancer
deriving DecidableEq, Repr

/-- Resource kind of a spec variant, spec section 3. -/
def kindOf : ResourceSpec → ResourceKind
  | .compute _ _ _ => .compute
  | .storage _ _ => .storage
  | .database _ _ _ _ => .database
  | .network _ => .network
  | .load_balancer => .loadBalancer

/-- Modelled from the spec: UnitPrice record of section 3.  Timestamps are
natural-number seconds; money is exact rational dollars. -/
structure UnitPrice where
  provider : CloudProvider
  resource_kind : ResourceKind
  sku_key : String
  unit_cost : ℚ
  currency : String
  source_label : String
  fetched_at : Nat
  is_live : Bool
deriving DecidableEq, Repr

/-- Modelled from the spec: CacheEntry of section 3, a UnitPrice with its
expiry instant. -/
structure CacheEntry where
  price : UnitPrice
  expires_at : Nat
deriving DecidableEq, Repr

/-- Modelled from the spec: CostLineItem of section 3, derived per request. -/
structure CostLineItem where
  label : String
  unit_cost : ℚ
  quantity : ℚ
  monthly_cost : ℚ
  source_label : String
  resource_kind : ResourceKind
deriving DecidableEq, Repr

/-- Modelled from the spec: EstimateResult of section 3. -/
structure EstimateResult where
  provider : CloudProvider
  breakdown : List CostLineItem
  total_monthly_cost : ℚ
  total_annual_cost : ℚ
  currency : String
  computed_at : Nat
  pricing_note : String
deriving DecidableEq, Repr

/-- Modelled from the spec: ComparisonResult of section 3. -/
structure ComparisonResult where
  estimates : List EstimateResult
  cheapest_provider : CloudProvider
  potential_savings : ℚ
deriving DecidableEq, Repr

/-- Modelled from the spec: InvalidSpecError of sections 6 and 7. -/
structure InvalidSpecError where
  field : String
  reason : String
deriving DecidableEq, Repr

/-- Parse a raw compute size string; the four valid sizes come from
src/frontend/src/types/index.ts. -/
def parseComputeSize : String → Option ComputeSize
  | "small" => some .small
  | "medium" => some .medium
  | "large" => some .large
  | "xlarge" => some .xlarge
  | _ => none

/-- Parse a raw storage class string. -/
def parseStorageType : String → Option StorageType
  | "standard" => some .standard
  | "premium" => some .premium
  | "archive" => some .archive
  | _ => none

/-- Parse a raw database type string. -/
def parseDbType : String → Option DatabaseType
  | "sql" => some .sql
  | "nosql" => some .nosql
  | "cache" => some .cache
  | _ => none

/-- Parse a raw database tier string. -/
def parseDbTier : String → Option DatabaseTier
  | "basic" => some .basic
  | "standard" => some .standard
  | "premium" => some .premium
  | _ => none

/-- Modelled from the spec: the static size-to-instance-type table of
section 4.1, with the concrete instance types from the frontend test
fixtures (src/unnamed tests) where known. -/
def computeSku : CloudProvider → ComputeSize → String
  | .aws, .small => "t3.micro"
  | .aws, .medium => "t3.small"
  | .aws, .large => "t3.medium"
  | .aws, .xlarge => "t3.large"
  | .azure, .small => "Standard_B1s"
  | .azure, .medium => "Standard_B2s"
  | .azure, .large => "Standard_B4ms"
  | .azure, .xlarge => "Standard_B8ms"
  | .gcp, .small => "e2-micro"
  | .gcp, .medium => "e2-small"
  | .gcp, .large => "e2-medium"
  | .gcp, .xlarge => "e2-standard-4"

/-- Modelled from the spec: the static storage-class-to-SKU table of
section 4.1, service names from the frontend test fixtures where known. -/
def storageSku : CloudProvider → StorageType → String
  | .aws, .standard => "Amazon S3 Standard"
  | .aws, .premium => "Amazon S3 Express"
  | .aws, .archive => "Amazon S3 Glacier"
  | .azure, .standard => "Azure Blob Storage (Hot)"
  | .azure, .premium => "Azure Blob Storage (Premium)"
  | .azure, .archive => "Azure Blob Storage (Archive)"
  | .gcp, .standard => "Cloud Storage Standard"
  | .gcp, .premium => "Cloud Storage SSD"
  | .gcp, .archive => "Cloud Storage Archive"

/-- Modelled from the spec: the static db-tier-to-SKU table of section 4.1. -/
def dbSku (p : CloudProvider) (t : DatabaseType) (tier : DatabaseTier) : String :=
  providerName p ++ "-db-" ++
    (match t with
      | .sql => "sql"
      | .nosql => "nosql"
      | .cache => "cache") ++ "-" ++
    (match tier with
      | .basic => "basic"
      | .standard => "standard"
      | .premium => "premium")

/-- Modelled from the spec: per-provider SKU key for network egress. -/
def networkSku (p : CloudProvider) : String :=
  providerName p ++ "-egress"

/-- Modelled from the spec: per-provider SKU key for the load balancer. -/
def lbSku (p : CloudProvider) : String :=
  providerName p ++ "-load-balancer"

/-- Modelled from the spec: `resolve_sku` of section 4.1 — a pure static
lookup per provider that never fails for a syntactically valid ResourceSpec
and fails fast with InvalidSpecError on an unknown size, class, type or
tier, before any network call. -/
def resolve_sku (p : CloudProvider) : ResourceSpec → Except InvalidSpecError String
  | .compute size _ _ =>
    match parseComputeSize size with
    | some sz => .ok (computeSku p sz)
    | none => .error ⟨"size", "unknown compute size: " ++ size⟩
  | .storage cls _ =>
    match parseStorageType cls with
    | some c => .ok (storageSku p c)
    | none => .error ⟨"storage_class", "unknown storage class: " ++ cls⟩
  | .database ty tier _ _ =>
    match parseDbType ty, parseDbTier tier with
    | some t, some tr => .ok (dbSku p t tr)
    | none, _ => .error ⟨"db_type", "unknown database type: " ++ ty⟩
    | _, none => .error ⟨"tier", "unknown database tier: " ++ tier⟩
  | .network _ => .ok (networkSku p)
  | .load_balancer => .ok (lbSku p)

/-- Syntactic validity of a ResourceSpec: every raw string field parses. -/
def specValid : ResourceSpec → Bool
  | .compute size _ _ => (parseComputeSize size).isSome
  | .storage cls _ => (parseStorageType cls).isSome
  | .database ty tier _ _ => (parseDbType ty).isSome && (parseDbTier tier).isSome
  | .network _ => true
  | .load_balancer => true

/-- Modelled from the spec: the static reference-price table of section 6,
loaded at process start and used as the cache's last-resort fallback.  Rates
follow the figures in the spec scenarios and the frontend test fixtures. -/
def staticRate (p : CloudProvider) (rk : ResourceKind) : ℚ :=
  match p, rk with
  | .aws, .compute => 0.0416
  | .aws, .storage => 0.023
  | .aws, .database => 0.1
  | .aws, .network => 0.09
  | .aws, .loadBalancer => 18
  | .azure, .compute => 0.0416
  | .azure, .storage => 0.0184
  | .azure, .database => 0.11
  | .azure, .network => 0.087
  | .azure, .loadBalancer => 20
  | .gcp, .compute => 0.01675
  | .gcp, .storage => 0.02
  | .gcp, .database => 0.09
  | .gcp, .network => 0.085
  | .gcp, .loadBalancer => 17

/-- Modelled from the spec: the static fallback UnitPrice for a
(provider, resource kind, sku) triple, tagged not-live (section 4.2 step 3). -/
def staticUnitPrice (p : CloudProvider) (rk : ResourceKind) (sku : String) (now : Nat) : UnitPrice :=
  { provider := p
    resource_kind := rk
    sku_key := sku
    unit_cost := staticRate p rk
    currency := "USD"
    source_label := "static fallback"
    fetched_at := now
    is_live := false }

/-- The cache's backing store (spec section 5): an association list from
(provider, sku) to a CacheEntry. -/
abbrev CacheState : Type := List ((CloudProvider × String) × CacheEntry)

/-- Look up a cache entry by key. -/
def cacheFind : CacheState → CloudProvider × String → Option CacheEntry
  | [], _ => none
  | kv :: rest, k => if kv.1 = k then some kv.2 else cacheFind rest k

/-- Store (or shadow) a cache entry. -/
def cacheStore (st : CacheState) (k : CloudProvider × String) (e : CacheEntry) : CacheState :=
  (k, e) :: st

/-- Whether a non-expired entry exists for the key (spec section 4.2 step 1). -/
def cacheFresh (st : CacheState) (now : Nat) (k : CloudProvider × String) : Bool :=
  match cacheFind st k with
  | some e => decide (now < e.expires_at)
  | none => false

/-- Modelled from the spec: the outcome of one adapter `fetch_unit_price`
call (section 4.1); `none` stands for an UpstreamError (timeout, non-2xx,
unparseable payload). -/
abbrev AdapterEnv : Type := CloudProvider → ResourceKind → String → Option UnitPrice

/-- Cache TTL of spec section 4.2 step 2 (15 minutes, in seconds). -/
def ttlSeconds : Nat := 15 * 60

/-- Hard staleness ceiling of spec section 4.2 step 3 (24 hours, in seconds). -/
def staleCeiling : Nat := 24 * 3600

/-- Modelled from the spec: the adapter-call-and-fallback path of
`get_price` (section 4.2 steps 2 and 3).  Returns the price, the new cache
state and the number of adapter invocations made (always 1 here). -/
def refreshPrice (env : AdapterEnv) (st : CacheState) (now : Nat) (p : CloudProvider)
    (rk : ResourceKind) (sku : String) (stale : Option CacheEntry) :
    UnitPrice × CacheState × Nat :=
  match env p rk sku with
  | some fetched =>
    let fresh : UnitPrice := { fetched with fetched_at := now, is_live := true }
    (fresh, cacheStore st (p, sku) ⟨fresh, now + ttlSeconds⟩, 1)
  | none =>
    match stale with
    | some e =>
      if now - e.price.fetched_at < staleCeiling then
        ({ e.price with is_live := false, source_label := e.price.source_label ++ " (cached)" },
          st, 1)
      else
        (staticUnitPrice p rk sku now, st, 1)
    | none => (staticUnitPrice p rk sku now, st, 1)

/-- Modelled from the spec: `get_price` of section 4.2 — never fails, always
returns a usable UnitPrice.  A non-expired entry is returned as-is; otherwise
the adapter is called once, falling back to the stale entry (under the
staleness ceiling) or to the static reference price, both tagged not-live. -/
def get_price (env : AdapterEnv) (st : CacheState) (now : Nat) (p : CloudProvider)
    (rk : ResourceKind) (sku : String) : UnitPrice × CacheState × Nat :=
  match cacheFind st (p, sku) with
  | some e =>
    if now < e.expires_at then (e.price, st, 0)
    else refreshPrice env st now p rk sku (some e)
  | none => refreshPrice env st now p rk sku none

/-- Modelled from the spec: the kind-specific quantity equivalent of
section 4.3 (compute: hours times instance count; storage: size in GB;
database: storage GB times a backup-retention multiplier factor; network:
egress GB; load balancer: one flat monthly unit). -/
def quantityEquivalent : ResourceSpec → ℚ
  | .compute _ q h => (q : ℚ) * (h : ℚ)
  | .storage _ gb => (gb : ℚ)
  | .database _ _ gb days => (gb : ℚ) * (1 + (days : ℚ) / 30)
  | .network gb => (gb : ℚ)
  | .load_balancer => 1

/-- Modelled from the spec: the fixed evaluation order of section 4.3 —
compute, then storage, database, network, load balancer — independent of
call-completion order. -/
def orderedSpecs (specs : List ResourceSpec) : List ResourceSpec :=
  specs.filter (fun s => decide (kindOf s = .compute))
    ++ specs.filter (fun s => decide (kindOf s = .storage))
    ++ specs.filter (fun s => decide (kindOf s = .database))
    ++ specs.filter (fun s => decide (kindOf s = .network))
    ++ specs.filter (fun s => decide (kindOf s = .loadBalancer))

/-- Resolve every spec's SKU up front (spec sections 4.1 and 4.3):
validation happens before any pricing call, so an invalid spec aborts the
estimate with zero adapter invocations. -/
def resolveAll (p : CloudProvider) : List ResourceSpec → Except InvalidSpecError (List (ResourceSpec × String))
  | [] => .ok []
  | s :: rest =>
    match resolve_sku p s with
    | .error e => .error e
    | .ok sku =>
      match resolveAll p rest with
      | .error e => .error e
      | .ok xs => .ok ((s, sku) :: xs)

/-- The line item built from a spec, its SKU and its unit price
(spec section 3, CostLineItem): the per-line monthly cost is exact, never
rounded (sections 3 and 8). -/
def mkItem (s : ResourceSpec) (sku : String) (price : UnitPrice) : CostLineItem :=
  { label := sku
    unit_cost := price.unit_cost
    quantity := quantityEquivalent s
    monthly_cost := price.unit_cost * quantityEquivalent s
    source_label := price.source_label
    resource_kind := kindOf s }

/-- Modelled from the spec: the pricing loop of section 4.3.  Walks the
resolved specs in order, skips zero-quantity specs entirely, prices the rest
through the cache, and counts adapter invocations. -/
def priceOrdered (env : AdapterEnv) (p : CloudProvider) (now : Nat) :
    List (ResourceSpec × String) → CacheState → List CostLineItem × CacheState × Nat
  | [], st => ([], st, 0)
  | (s, sku) :: rest, st =>
    if quantityEquivalent s = 0 then priceOrdered env p now rest st
    else
      let g := get_price env st now p (kindOf s) sku
      let r2 := priceOrdered env p now rest g.2.1
      (mkItem s sku g.1 :: r2.1, r2.2.1, g.2.2 + r2.2.2)

/-- Sum of the line items' exact monthly costs. -/
def sumMonthly (items : List CostLineItem) : ℚ :=
  (items.map (fun i => i.monthly_cost)).sum

/-- The pricing note of spec section 4.3, summarizing the source of each line. -/
def pricingNote (items : List CostLineItem) : String :=
  "Sources: " ++ String.intercalate "; " (items.map (fun i => i.source_label))

/-- Modelled from the spec: `estimate` of section 4.3.  Resolves and
validates every spec first, prices them in the fixed kind order, sums the
exact line costs and rounds the total once (banker's rounding, section 8);
the annual total is exactly twelve monthly totals.  Returns the result (or
InvalidSpecError), the new cache state and the adapter invocation count. -/
def estimate (env : AdapterEnv) (p : CloudProvider) (specs : List ResourceSpec)
    (st : CacheState) (now : Nat) :
    Except InvalidSpecError EstimateResult × CacheState × Nat :=
  match resolveAll p (orderedSpecs specs) with
  | .error e => (.error e, st, 0)
  | .ok resolved =>
    let pr := priceOrdered env p now resolved st
    (.ok
      { provider := p
        breakdown := pr.1
        total_monthly_cost := roundCents (sumMonthly pr.1)
        total_annual_cost := roundCents (sumMonthly pr.1) * 12
        currency := "USD"
        computed_at := now
        pricing_note := pricingNote pr.1 }, pr.2.1, pr.2.2)

/-- The three providers, in lexicographic order of their identifiers
(spec sections 3 and 8: deterministic tie-break). -/
def providers : List CloudProvider := [.aws, .azure, .gcp]

/-- The estimate whose monthly total is minimal, earliest position winning
ties; its provider is the `argmin` of spec section 3. -/
def cheapestOf : List EstimateResult → CloudProvider
  | [] => .aws
  | e :: rest =>
    (rest.foldl
      (fun best x => if x.total_monthly_cost < best.total_monthly_cost then x else best)
      e).provider

/-- Minimum monthly total over a (nonempty) list of estimates. -/
def minTotalOf : List EstimateResult → ℚ
  | [] => 0
  | e :: rest => rest.foldl (fun m x => min m x.total_monthly_cost) e.total_monthly_cost

/-- Maximum monthly total over a (nonempty) list of estimates. -/
def maxTotalOf : List EstimateResult → ℚ
  | [] => 0
  | e :: rest => rest.foldl (fun m x => max m x.total_monthly_cost) e.total_monthly_cost

/-- Potential savings of spec section 3: max total minus min total, clamped
to be nonnegative. -/
def savingsOf (es : List EstimateResult) : ℚ :=
  max (maxTotalOf es - minTotalOf es) 0

/-- Assemble a ComparisonResult from the per-provider estimates
(spec section 3). -/
def mkComparison (es : List EstimateResult) : ComparisonResult :=
  { estimates := es
    cheapest_provider := cheapestOf es
    potential_savings := savingsOf es }

/-- Modelled from the spec: `compare` of section 4.4.  Invokes `estimate`
once per provider (in provider order, threading the shared cache), waits for
all three, and fails the whole comparison if any single estimate failed.
Returns the result, the final cache state and the total adapter count. -/
def compare (env : AdapterEnv) (specs : List ResourceSpec) (st : CacheState) (now : Nat) :
    Except InvalidSpecError ComparisonResult × CacheState × Nat :=
  let a := estimate env .aws specs st now
  let b := estimate env .azure specs a.2.1 now
  let c := estimate env .gcp specs b.2.1 now
  let n := a.2.2 + b.2.2 + c.2.2
  match a.1, b.1, c.1 with
  | .ok e1, .ok e2, .ok e3 => (.ok (mkComparison [e1, e2, e3]), c.2.1, n)
  | .error e, _, _ => (.error e, c.2.1, n)
  | _, .error e, _ => (.error e, c.2.1, n)
  | _, _, .error e => (.error e, c.2.1, n)

/-- Modelled from the spec: the observable events of the cache's
single-flight discipline (section 4.2): a caller requesting a key, and an
in-flight adapter fetch completing.  Per section 5 all cache mutations are
serialized per key, so a concurrent execution is an interleaving of these
atomic events. -/
inductive CacheEvent where
  | request (waiter : Nat) (key : CloudProvider × String)
  | complete (key : CloudProvider × String) (price : UnitPrice)
deriving DecidableEq, Repr

/-- Modelled from the spec: the cache state observed by the single-flight
discipline of section 4.2 — stored entries, the per-key in-flight waiter
lists, the number of adapter invocations so far, and the prices delivered
to each waiter. -/
structure FlightState where
  entries : List ((CloudProvider × String) × CacheEntry)
  inflight : List ((CloudProvider × String) × List Nat)
  adapterCalls : Nat
  delivered : List (Nat × UnitPrice)
deriving DecidableEq, Repr

/-- The initial cache state: nothing stored, nothing in flight. -/
def emptyFlight : FlightState :=
  { entries := [], inflight := [], adapterCalls := 0, delivered := [] }

/-- Waiters currently in flight for a key. -/
def flightFind : List ((CloudProvider × String) × List Nat) → CloudProvider × String → Option (List Nat)
  | [], _ => none
  | kv :: rest, k => if kv.1 = k then some kv.2 else flightFind rest k

/-- Add a waiter to an existing in-flight key. -/
def flightJoin : List ((CloudProvider × String) × List Nat) → CloudProvider × String → Nat →
    List ((CloudProvider × String) × List Nat)
  | [], _, _ => []
  | kv :: rest, k, w => if kv.1 = k then (kv.1, w :: kv.2) :: rest else kv :: flightJoin rest k w

/-- One atomic cache event (spec sections 4.2 and 5): a request is served
from a stored entry, joins an existing flight for its key, or opens a new
flight — the only place an adapter invocation is triggered; a completion
stores the fetched price and fans it out to every waiter of that key. -/
def stepFlight (st : FlightState) : CacheEvent → FlightState
  | .request w k =>
    match cacheFind st.entries k with
    | some e => { st with delivered := (w, e.price) :: st.delivered }
    | none =>
      match flightFind st.inflight k with
      | some _ => { st with inflight := flightJoin st.inflight k w }
      | none =>
        { st with inflight := (k, [w]) :: st.inflight, adapterCalls := st.adapterCalls + 1 }
  | .complete k price =>
    match flightFind st.inflight k with
    | some ws =>
      { entries := (k, ⟨price, ttlSeconds⟩) :: st.entries
        inflight := st.inflight.filter (fun kv => decide (kv.1 ≠ k))
        adapterCalls := st.adapterCalls
        delivered := ws.map (fun w => (w, price)) ++ st.delivered }
    | none => st

/-- Run a sequence of atomic cache events. -/
def runFlight (st : FlightState) (evs : List CacheEvent) : FlightState :=
  evs.foldl stepFlight st

/-- N concurrent requests for one key, by waiter ids 0 to n-1. -/
def requestBurst (n : Nat) (k : CloudProvider × String) : List CacheEvent :=
  (List.range n).map (fun i => CacheEvent.request i k)

namespace Frontend

/-- ComputeEstimateRequest of src/frontend/src/types/index.ts as populated
by buildEstimateRequest (src/frontend/src/services/api.ts lines 108-115). -/
structure ComputeReq where
  provider : CloudProvider
  size : ComputeSize
  hours_per_month : ℚ
  quantity : ℚ
deriving DecidableEq, Repr

/-- StorageEstimateRequest of src/frontend/src/types/index.ts as populated
by buildEstimateRequest (api.ts lines 117-123). -/
structure StorageReq where
  provider : CloudProvider
  storage_type : StorageType
  size_gb : ℚ
deriving DecidableEq, Repr

/-- DatabaseEstimateRequest as populated by buildEstimateRequest (api.ts
lines 125-131); database_type is a raw string narrowed by a type cast in
the source. -/
structure DatabaseReq where
  provider : CloudProvider
  database_type : String
  hours_per_month : ℚ
deriving DecidableEq, Repr

/-- FullEstimateRequest of src/frontend/src/types/index.ts: the three
sub-requests are optional fields. -/
structure FullEstimateRequest where
  provider : CloudProvider
  compute : Option ComputeReq := none
  storage : Option StorageReq := none
  database : Option DatabaseReq := none
  data_transfer_gb : ℚ
  include_load_balancer : Bool
deriving DecidableEq, Repr

/-- The form-state parameter of buildEstimateRequest
(src/frontend/src/services/api.ts lines 87-100). -/
structure FormState where
  includeCompute : Bool
  computeSize : ComputeSize
  computeQuantity : ℚ
  computeHours : ℚ
  includeStorage : Bool
  storageType : StorageType
  storageSize : ℚ
  includeDatabase : Bool
  databaseType : String
  databaseHours : ℚ
  dataTransferGb : ℚ
  includeLoadBalancer : Bool
deriving DecidableEq, Repr

/-- buildEstimateRequest of src/frontend/src/services/api.ts lines 85-134:
starts from the top-level fields and conditionally attaches each sub-request
according to the include flags, stamping the top-level provider into each. -/
def buildEstimateRequest (provider : CloudProvider) (f : FormState) : FullEstimateRequest :=
  let request : FullEstimateRequest :=
    { provider := provider
      data_transfer_gb := f.dataTransferGb
      include_load_balancer := f.includeLoadBalancer }
  let request :=
    if f.includeCompute then
      { request with
          compute := some ⟨provider, f.computeSize, f.computeHours, f.computeQuantity⟩ }
    else request
  let request :=
    if f.includeStorage then
      { request with
          storage := some ⟨provider, f.storageType, f.storageSize⟩ }
    else request
  let request :=
    if f.includeDatabase then
      { request with
          database := some ⟨provider, f.databaseType, f.databaseHours⟩ }
    else request
  request

/-- The wire keys of the compute sizes. -/
def computeSizeKey : ComputeSize → String
  | .small => "small"
  | .medium => "medium"
  | .large => "large"
  | .xlarge => "xlarge"

/-- The wire keys of the storage types. -/
def storageTypeKey : StorageType → String
  | .standard => "standard"
  | .premium => "premium"
  | .archive => "archive"

/-- The optional parameters accepted by compareProviders
(src/frontend/src/services/api.ts lines 66-71); `none` models an
undefined field, and a JavaScript number is an integer here. -/
structure CompareParams where
  compute_size : Option ComputeSize := none
  storage_gb : Option Int := none
  storage_type : Option StorageType := none
  hours_per_month : Option Int := none
deriving DecidableEq, Repr

/-- The query parameters compareProviders serializes
(src/frontend/src/services/api.ts lines 72-76): each parameter is set only
when its value is truthy — an undefined field or a zero number is omitted —
in the fixed order compute_size, storage_gb, storage_type, hours_per_month. -/
def compareQueryParams (params : CompareParams) : List (String × String) :=
  let l0 : List (String × String) := []
  let l1 :=
    match params.compute_size with
    | some s => l0 ++ [("compute_size", computeSizeKey s)]
    | none => l0
  let l2 :=
    match params.storage_gb with
    | some n => if n ≠ 0 then l1 ++ [("storage_gb", toString n)] else l1
    | none => l1
  let l3 :=
    match params.storage_type with
    | some t => l2 ++ [("storage_type", storageTypeKey t)]
    | none => l2
  match params.hours_per_month with
  | some n => if n ≠ 0 then l3 ++ [("hours_per_month", toString n)] else l3
  | none => l3

end Frontend

/-! Concrete inputs and outputs used to witness the theorems below. -/

/-- An adapter environment in which every upstream call fails
(UpstreamError on all three providers). -/
def demoEnvDown : AdapterEnv := fun _ _ _ => none

/-- A single valid storage spec: 100 GB of standard storage. -/
def demoStorageSpec : List ResourceSpec := [ResourceSpec.storage "standard" 100]

/-- A spec list containing an invalid compute size (spec Scenario D). -/
def demoBadSpec : List ResourceSpec := [ResourceSpec.compute "nonexistent" 1 730]

/-- Extract the successful EstimateResult (zero result when failed). -/
def okEstimate : Except InvalidSpecError EstimateResult → EstimateResult
  | .ok r => r
  | .error _ =>
    { provider := .aws, breakdown := [], total_monthly_cost := 0, total_annual_cost := 0
      currency := "USD", computed_at := 0, pricing_note := "" }

/-- Extract the successful ComparisonResult (empty result when failed). -/
def okComparison : Except InvalidSpecError ComparisonResult → ComparisonResult
  | .ok r => r
  | .error _ => { estimates := [], cheapest_provider := .aws, potential_savings := 0 }

/-- The estimate `estimate demoEnvDown aws demoStorageSpec [] 0` returns. -/
def demoStorageResult : EstimateResult :=
  okEstimate (estimate demoEnvDown .aws demoStorageSpec [] 0).1

/-- The cache state the demo storage estimate leaves behind. -/
def demoStorageState : CacheState :=
  (estimate demoEnvDown .aws demoStorageSpec [] 0).2.1

/-- Adapter invocations the demo storage estimate made. -/
def demoStorageCalls : Nat :=
  (estimate demoEnvDown .aws demoStorageSpec [] 0).2.2

/-- The comparison `compare demoEnvDown [] [] 0` returns. -/
def demoCmp : ComparisonResult :=
  okComparison (compare demoEnvDown [] [] 0).1

/-- The cache state the demo comparison leaves behind. -/
def demoCmpState : CacheState :=
  (compare demoEnvDown [] [] 0).2.1

/-- Adapter invocations the demo comparison made. -/
def demoCmpCalls : Nat :=
  (compare demoEnvDown [] [] 0).2.2

/-- A concrete cache key for the single-flight witness. -/
def demoKey : CloudProvider × String := (CloudProvider.aws, "t3.small")

/-- A concrete price for the single-flight witness. -/
def demoPrice : UnitPrice := staticUnitPrice .aws .compute "t3.small" 0

/-- Concrete compareProviders parameters with two zero (falsy) numbers. -/
def demoParams : Frontend.CompareParams :=
  { compute_size := some .medium
    storage_gb := some 0
    storage_type := none
    hours_per_month := some 0 }

/-! Supporting lemmas. -/

theorem roundHalfEven_dist (q : ℚ) : |(roundHalfEven q : ℚ) - q| ≤ 1 / 2 := by
  unfold roundHalfEven
  have hfl : (Int.floor q : ℚ) ≤ q := Int.floor_le q
  have hfu : q < (Int.floor q : ℚ) + 1 := Int.lt_floor_add_one q
  split_ifs with h1 h2 h3 <;>
    · rw [abs_le]
      constructor <;> push_cast <;> linarith

theorem roundCents_dist (q : ℚ) : |roundCents q - q| ≤ 1 / 200 := by
  have h := roundHalfEven_dist (q * 100)
  unfold roundCents
  have h2 : |(roundHalfEven (q * 100) : ℚ) / 100 - q|
      = |(roundHalfEven (q * 100) : ℚ) - q * 100| / 100 := by
    rw [← abs_of_pos (show (0 : ℚ) < 100 by norm_num), ← abs_div]
    congr 1
    field_simp
    ring
  rw [h2]
  rw [div_le_div_iff₀ (by norm_num) (by norm_num)]
  linarith

theorem resolve_sku_ok_of_valid (p : CloudProvider) (s : ResourceSpec)
    (hv : specValid s = true) : ∃ sku, resolve_sku p s = Except.ok sku := by
  cases s with
  | compute size q h =>
    simp only [specValid, Option.isSome_iff_exists] at hv
    obtain ⟨sz, hsz⟩ := hv
    exact ⟨computeSku p sz, by simp [resolve_sku, hsz]⟩
  | storage cls gb =>
    simp only [specValid, Option.isSome_iff_exists] at hv
    obtain ⟨c, hc⟩ := hv
    exact ⟨storageSku p c, by simp [resolve_sku, hc]⟩
  | database ty tier gb days =>
    simp only [specValid, Bool.and_eq_true, Option.isSome_iff_exists] at hv
    obtain ⟨⟨t, ht⟩, ⟨tr, htr⟩⟩ := hv
    exact ⟨dbSku p t tr, by simp [resolve_sku, ht, htr]⟩
  | network gb => exact ⟨networkSku p, rfl⟩
  | load_balancer => exact ⟨lbSku p, rfl⟩

theorem resolve_sku_error_of_invalid (p : CloudProvider) (s : ResourceSpec)
    (hv : specValid s = false) : ∃ e, resolve_sku p s = Except.error e := by
  cases s with
  | compute size q h =>
    cases hsz : parseComputeSize size with
    | some sz => simp [specValid, hsz] at hv
    | none => exact ⟨⟨"size", "unknown compute size: " ++ size⟩, by simp [resolve_sku, hsz]⟩
  | storage cls gb =>
    cases hc : parseStorageType cls with
    | some c => simp [specValid, hc] at hv
    | none =>
      exact ⟨⟨"storage_class", "unknown storage class: " ++ cls⟩, by simp [resolve_sku, hc]⟩
  | database ty tier gb days =>
    cases ht : parseDbType ty with
    | none => exact ⟨⟨"db_type", "unknown database type: " ++ ty⟩, by simp [resolve_sku, ht]⟩
    | some t =>
      cases htr : parseDbTier tier with
      | none =>
        exact ⟨⟨"tier", "unknown database tier: " ++ tier⟩, by simp [resolve_sku, ht, htr]⟩
      | some tr => simp [specValid, ht, htr] at hv
  | network gb => simp [specValid] at hv
  | load_balancer => simp [specValid] at hv

theorem resolve_sku_error_indep (p q : CloudProvider) (s : ResourceSpec)
    (e : InvalidSpecError) (h : resolve_sku p s = Except.error e) :
    resolve_sku q s = Except.error e := by
  cases s with
  | compute size qt hr =>
    cases hsz : parseComputeSize size <;> simp [resolve_sku, hsz] at h ⊢ <;> exact h
  | storage cls gb =>
    cases hc : parseStorageType cls <;> simp [resolve_sku, hc] at h ⊢ <;> exact h
  | database ty tier gb days =>
    cases ht : parseDbType ty <;> cases htr : parseDbTier tier <;>
      simp [resolve_sku, ht, htr] at h ⊢ <;> exact h
  | network gb => simp [resolve_sku] at h
  | load_balancer => simp [resolve_sku] at h

theorem resolveAll_ok_fst (p : CloudProvider) :
    ∀ (l : List ResourceSpec) (res : List (ResourceSpec × String)),
      resolveAll p l = Except.ok res → res.map Prod.fst = l := by
  intro l
  induction l with
  | nil => intro res h; simp [resolveAll] at h; simp [← h]
  | cons a l ih =>
    intro res h
    simp only [resolveAll] at h
    cases hr : resolve_sku p a with
    | error e => rw [hr] at h; exact absurd h (by simp)
    | ok sku =>
      rw [hr] at h
      cases hrest : resolveAll p l with
      | error e => rw [hrest] at h; exact absurd h (by simp)
      | ok xs =>
        rw [hrest] at h
        simp only [Except.ok.injEq] at h
        subst h
        simp [ih xs hrest]

theorem resolveAll_error_of_invalid (p : CloudProvider) :
    ∀ (l : List ResourceSpec) (s : ResourceSpec), s ∈ l → specValid s = false →
      ∃ e, resolveAll p l = Except.error e := by
  intro l
  induction l with
  | nil => intro s hs; simp at hs
  | cons a l ih =>
    intro s hs hv
    rcases List.mem_cons.mp hs with h | h
    · subst h
      obtain ⟨e, he⟩ := resolve_sku_error_of_invalid p s hv
      exact ⟨e, by simp [resolveAll, he]⟩
    · cases hr : resolve_sku p a with
      | error e => exact ⟨e, by simp [resolveAll, hr]⟩
      | ok sku =>
        obtain ⟨e, he⟩ := ih s h hv
        exact ⟨e, by simp [resolveAll, hr, he]⟩

theorem resolveAll_error_indep (p q : CloudProvider) :
    ∀ (l : List ResourceSpec) (e : InvalidSpecError),
      resolveAll p l = Except.error e → resolveAll q l = Except.error e := by
  intro l
  induction l with
  | nil => intro e h; simp [resolveAll] at h
  | cons a l ih =>
    intro e h
    simp only [resolveAll] at h ⊢
    cases hr : resolve_sku p a with
    | error e0 =>
      rw [hr] at h
      have he : e0 = e := by simpa using h
      subst he
      rw [resolve_sku_error_indep p q a e0 hr]
    | ok sku =>
      rw [hr] at h
      have hval : specValid a = true := by
        by_contra hv
        obtain ⟨e1, he1⟩ := resolve_sku_error_of_invalid p a (Bool.eq_false_iff.mpr hv)
        rw [he1] at hr
        exact absurd hr (by simp)
      obtain ⟨sku2, hsku2⟩ := resolve_sku_ok_of_valid q a hval
      rw [hsku2]
      cases hrest : resolveAll p l with
      | error e0 =>
        rw [hrest] at h
        have he : e0 = e := by simpa using h
        subst he
        rw [ih e0 hrest]
      | ok xs => rw [hrest] at h; exact absurd h (by simp)

theorem mem_orderedSpecs {s : ResourceSpec} {specs : List ResourceSpec}
    (h : s ∈ specs) : s ∈ orderedSpecs specs := by
  unfold orderedSpecs
  simp only [List.mem_append, List.mem_filter]
  cases hk : kindOf s
  · exact Or.inl (Or.inl (Or.inl (Or.inl ⟨h, by simp [hk]⟩)))
  · exact Or.inl (Or.inl (Or.inl (Or.inr ⟨h, by simp [hk]⟩)))
  · exact Or.inl (Or.inl (Or.inr ⟨h, by simp [hk]⟩))
  · exact Or.inl (Or.inr ⟨h, by simp [hk]⟩)
  · exact Or.inr ⟨h, by simp [hk]⟩

theorem kind_of_mem_filter {k : ResourceKind} {s : ResourceSpec} {specs : List ResourceSpec}
    (h : s ∈ specs.filter (fun x => decide (kindOf x = k))) : kindOf s = k := by
  have := List.of_mem_filter h
  simpa using this

theorem orderedSpecs_pairwise (specs : List ResourceSpec) :
    (orderedSpecs specs).Pairwise
      (fun a b => kindRank (kindOf a) ≤ kindRank (kindOf b)) := by
  unfold orderedSpecs
  have block : ∀ (k : ResourceKind),
      (specs.filter (fun x => decide (kindOf x = k))).Pairwise
        (fun a b => kindRank (kindOf a) ≤ kindRank (kindOf b)) := by
    intro k
    apply List.pairwise_of_forall_mem_list
    intro a ha b hb
    rw [kind_of_mem_filter ha, kind_of_mem_filter hb]
  have cross : ∀ (k1 k2 : ResourceKind), kindRank k1 ≤ kindRank k2 →
      ∀ a ∈ specs.filter (fun x => decide (kindOf x = k1)),
      ∀ b ∈ specs.filter (fun x => decide (kindOf x = k2)),
        kindRank (kindOf a) ≤ kindRank (kindOf b) := by
    intro k1 k2 hle a ha b hb
    rw [kind_of_mem_filter ha, kind_of_mem_filter hb]
    exact hle
  simp only [List.append_assoc]
  rw [List.pairwise_append]
  refine ⟨block .compute, ?_, ?_⟩
  · rw [List.pairwise_append]
    refine ⟨block .storage, ?_, ?_⟩
    · rw [List.pairwise_append]
      refine ⟨block .database, ?_, ?_⟩
      · rw [List.pairwise_append]
        refine ⟨block .network, block .loadBalancer, ?_⟩
        · exact cross .network .loadBalancer (by decide)
      · intro a ha b hb
        rcases List.mem_append.mp hb with hb | hb
        · exact cross .database .network (by decide) a ha b hb
        · exact cross .database .loadBalancer (by decide) a ha b hb
    · intro a ha b hb
      rcases List.mem_append.mp hb with hb | hb
      · exact cross .storage .database (by decide) a ha b hb
      rcases List.mem_append.mp hb with hb | hb
      · exact cross .storage .network (by decide) a ha b hb
      · exact cross .storage .loadBalancer (by decide) a ha b hb
  · intro a ha b hb
    rcases List.mem_append.mp hb with hb | hb
    · exact cross .compute .storage (by decide) a ha b hb
    rcases List.mem_append.mp hb with hb | hb
    · exact cross .compute .database (by decide) a ha b hb
    rcases List.mem_append.mp hb with hb | hb
    · exact cross .compute .network (by decide) a ha b hb
    · exact cross .compute .loadBalancer (by decide) a ha b hb

theorem priceOrdered_mem (env : AdapterEnv) (p : CloudProvider) (now : Nat) :
    ∀ (rs : List (ResourceSpec × String)) (st : CacheState),
      ∀ i ∈ (priceOrdered env p now rs st).1,
        i.monthly_cost = i.unit_cost * i.quantity ∧ i.quantity ≠ 0 := by
  intro rs
  induction rs with
  | nil => intro st i hi; simp [priceOrdered] at hi
  | cons x rest ih =>
    intro st i hi
    obtain ⟨s, sku⟩ := x
    by_cases hq : quantityEquivalent s = 0
    · rw [show priceOrdered env p now ((s, sku) :: rest) st = priceOrdered env p now rest st by
        simp [priceOrdered, hq]] at hi
      exact ih st i hi
    · simp only [priceOrdered, if_neg hq] at hi
      rcases List.mem_cons.mp hi with h | h
      · subst h
        exact ⟨rfl, hq⟩
      · exact ih _ i h

theorem priceOrdered_kinds_sublist (env : AdapterEnv) (p : CloudProvider) (now : Nat) :
    ∀ (rs : List (ResourceSpec × String)) (st : CacheState),
      ((priceOrdered env p now rs st).1.map (fun i => i.resource_kind)).Sublist
        (rs.map (fun x => kindOf x.1)) := by
  intro rs
  induction rs with
  | nil => intro st; simp [priceOrdered]
  | cons x rest ih =>
    intro st
    obtain ⟨s, sku⟩ := x
    by_cases hq : quantityEquivalent s = 0
    · rw [show priceOrdered env p now ((s, sku) :: rest) st = priceOrdered env p now rest st by
        simp [priceOrdered, hq]]
      exact (ih st).trans (List.sublist_cons_self _ _)
    · simp only [priceOrdered, if_neg hq, List.map_cons, mkItem]
      exact List.Sublist.cons₂ _ (ih _)

theorem priceOrdered_length (env : AdapterEnv) (p : CloudProvider) (now : Nat) :
    ∀ (rs : List (ResourceSpec × String)) (st : CacheState),
      (priceOrdered env p now rs st).1.length
        = (rs.filter (fun x => decide (quantityEquivalent x.1 ≠ 0))).length := by
  intro rs
  induction rs with
  | nil => intro st; simp [priceOrdered]
  | cons x rest ih =>
    intro st
    obtain ⟨s, sku⟩ := x
    by_cases hq : quantityEquivalent s = 0
    · rw [show priceOrdered env p now ((s, sku) :: rest) st = priceOrdered env p now rest st by
        simp [priceOrdered, hq]]
      rw [ih st]
      simp [List.filter_cons, hq]
    · simp only [priceOrdered, if_neg hq, List.length_cons]
      rw [ih _]
      simp [List.filter_cons, hq]

theorem estimate_ok_elim (env : AdapterEnv) (p : CloudProvider) (specs : List ResourceSpec)
    (st : CacheState) (now : Nat) (r : EstimateResult) (st2 : CacheState) (n : Nat)
    (h : estimate env p specs st now = (Except.ok r, st2, n)) :
    ∃ resolved, resolveAll p (orderedSpecs specs) = Except.ok resolved ∧
      r = { provider := p
            breakdown := (priceOrdered env p now resolved st).1
            total_monthly_cost := roundCents (sumMonthly (priceOrdered env p now resolved st).1)
            total_annual_cost := roundCents (sumMonthly (priceOrdered env p now resolved st).1) * 12
            currency := "USD"
            computed_at := now
            pricing_note := pricingNote (priceOrdered env p now resolved st).1 } := by
  unfold estimate at h
  cases hres : resolveAll p (orderedSpecs specs) with
  | error e => rw [hres] at h; exact absurd h (by simp)
  | ok resolved =>
    rw [hres] at h
    refine ⟨resolved, rfl, ?_⟩
    have := congrArg Prod.fst h
    simp only at this
    exact (Except.ok.injEq _ _).mp this.symm

theorem estimate_error_iff (env : AdapterEnv) (p : CloudProvider) (specs : List ResourceSpec)
    (st : CacheState) (now : Nat) (e : InvalidSpecError) :
    (estimate env p specs st now).1 = Except.error e ↔
      resolveAll p (orderedSpecs specs) = Except.error e := by
  unfold estimate
  cases hres : resolveAll p (orderedSpecs specs) with
  | error e0 => simp
  | ok resolved => simp

theorem estimate_error_count (env : AdapterEnv) (p : CloudProvider) (specs : List ResourceSpec)
    (st : CacheState) (now : Nat) (e : InvalidSpecError)
    (h : (estimate env p specs st now).1 = Except.error e) :
    (estimate env p specs st now).2.2 = 0 := by
  unfold estimate at h ⊢
  cases hres : resolveAll p (orderedSpecs specs) with
  | error e0 => simp
  | ok resolved => rw [hres] at h; exact absurd h (by simp)

theorem pairwise_unmap {α β : Type} {R : β → β → Prop} {f : α → β} {l : List α}
    (h : (l.map f).Pairwise R) : l.Pairwise (fun a b => R (f a) (f b)) :=
  List.pairwise_map.mp h

theorem estimate_ok_provider (env : AdapterEnv) (p : CloudProvider) (specs : List ResourceSpec)
    (st : CacheState) (now : Nat) (r : EstimateResult)
    (h : (estimate env p specs st now).1 = Except.ok r) : r.provider = p := by
  unfold estimate at h
  cases hres : resolveAll p (orderedSpecs specs) with
  | error e => rw [hres] at h; exact absurd h (by simp)
  | ok resolved =>
    rw [hres] at h
    simp only [Except.ok.injEq] at h
    rw [← h]

theorem compare_ok_elim (env : AdapterEnv) (specs : List ResourceSpec) (st : CacheState)
    (now : Nat) (r : ComparisonResult) (st2 : CacheState) (n : Nat)
    (h : compare env specs st now = (Except.ok r, st2, n)) :
    ∃ e1 e2 e3, r = mkComparison [e1, e2, e3]
      ∧ e1.provider = CloudProvider.aws
      ∧ e2.provider = CloudProvider.azure
      ∧ e3.provider = CloudProvider.gcp := by
  simp only [compare] at h
  cases ha : (estimate env .aws specs st now).1 with
  | error e => rw [ha] at h; exact absurd h (by simp)
  | ok e1 =>
    cases hb : (estimate env .azure specs (estimate env .aws specs st now).2.1 now).1 with
    | error e => rw [ha, hb] at h; exact absurd h (by simp)
    | ok e2 =>
      cases hc : (estimate env .gcp specs
          (estimate env .azure specs (estimate env .aws specs st now).2.1 now).2.1 now).1 with
      | error e => rw [ha, hb, hc] at h; exact absurd h (by simp)
      | ok e3 =>
        rw [ha, hb, hc] at h
        refine ⟨e1, e2, e3, ?_, estimate_ok_provider _ _ _ _ _ _ ha,
          estimate_ok_provider _ _ _ _ _ _ hb, estimate_ok_provider _ _ _ _ _ _ hc⟩
        have := congrArg Prod.fst h
        simp only at this
        exact ((Except.ok.injEq _ _).mp this).symm

theorem cheapest3 (e1 e2 e3 : EstimateResult) :
    ∃ e ∈ [e1, e2, e3], e.provider = cheapestOf [e1, e2, e3]
      ∧ ∀ x ∈ [e1, e2, e3], e.total_monthly_cost ≤ x.total_monthly_cost := by
  simp only [cheapestOf, List.foldl]
  split_ifs with h1 h2 h3
  · refine ⟨e3, by simp, rfl, ?_⟩
    intro x hx
    simp only [List.mem_cons, List.not_mem_nil, or_false] at hx
    rcases hx with rfl | rfl | rfl <;> linarith
  · refine ⟨e2, by simp, rfl, ?_⟩
    intro x hx
    have h3le := le_of_not_lt h2
    simp only [List.mem_cons, List.not_mem_nil, or_false] at hx
    rcases hx with rfl | rfl | rfl <;> linarith
  · refine ⟨e3, by simp, rfl, ?_⟩
    intro x hx
    have h2le := le_of_not_lt h1
    simp only [List.mem_cons, List.not_mem_nil, or_false] at hx
    rcases hx with rfl | rfl | rfl <;> linarith
  · refine ⟨e1, by simp, rfl, ?_⟩
    intro x hx
    have h2le := le_of_not_lt h1
    have h3le := le_of_not_lt h3
    simp only [List.mem_cons, List.not_mem_nil, or_false] at hx
    rcases hx with rfl | rfl | rfl <;> linarith

theorem minTotalOf3 (e1 e2 e3 : EstimateResult) :
    minTotalOf [e1, e2, e3]
      = min (min e1.total_monthly_cost e2.total_monthly_cost) e3.total_monthly_cost := by
  simp [minTotalOf, List.foldl]

theorem maxTotalOf3 (e1 e2 e3 : EstimateResult) :
    maxTotalOf [e1, e2, e3]
      = max (max e1.total_monthly_cost e2.total_monthly_cost) e3.total_monthly_cost := by
  simp [maxTotalOf, List.foldl]

theorem min3_le_max3 (e1 e2 e3 : EstimateResult) :
    minTotalOf [e1, e2, e3] ≤ maxTotalOf [e1, e2, e3] := by
  rw [minTotalOf3, maxTotalOf3]
  exact le_trans (min_le_right _ _) (le_max_right _ _)

theorem savingsOf3 (e1 e2 e3 : EstimateResult) :
    savingsOf [e1, e2, e3] = maxTotalOf [e1, e2, e3] - minTotalOf [e1, e2, e3] := by
  unfold savingsOf
  exact max_eq_left (sub_nonneg.mpr (min3_le_max3 e1 e2 e3))

theorem cheapest3_tie (e1 e2 e3 : EstimateResult) (t : ℚ)
    (h1 : e1.total_monthly_cost = t) (h2 : e2.total_monthly_cost = t)
    (h3 : e3.total_monthly_cost = t) :
    cheapestOf [e1, e2, e3] = e1.provider := by
  simp [cheapestOf, h1, h2, h3]

theorem burst_state (k : CloudProvider × String) :
    ∀ n : Nat, 1 ≤ n →
      runFlight emptyFlight (requestBurst n k)
        = { entries := []
            inflight := [(k, (List.range n).reverse)]
            adapterCalls := 1
            delivered := [] } := by
  intro n
  induction n with
  | zero => intro h; cases h
  | succ m ih =>
    intro _
    have hsplit : requestBurst (m + 1) k = requestBurst m k ++ [CacheEvent.request m k] := by
      unfold requestBurst
      rw [List.range_succ, List.map_append]
      rfl
    rw [hsplit]
    unfold runFlight
    rw [List.foldl_append]
    cases Nat.eq_zero_or_pos m with
    | inl hm =>
      subst hm
      simp [requestBurst, stepFlight, emptyFlight, cacheFind, flightFind, List.range_succ]
    | inr hm =>
      rw [show List.foldl stepFlight emptyFlight (requestBurst m k)
          = runFlight emptyFlight (requestBurst m k) from rfl, ih hm]
      simp [stepFlight, cacheFind, flightFind, flightJoin, List.range_succ]

/-! Claim theorems. -/

/-- C1: for every valid sequence of ResourceSpecs and every provider, the
EstimateResult returned by `estimate` has `total_monthly_cost` equal to the
sum of the breakdown's monthly costs rounded to the cent by banker's
rounding, applied exactly once at the total and never per line item (every
line item's monthly cost is the exact, unrounded product of its unit cost
and quantity), so the total agrees with the exact sum to within half a
cent. -/
theorem estimate_total_rounded_once (env : AdapterEnv) (p : CloudProvider)
    (specs : List ResourceSpec) (st : CacheState) (now : Nat) (r : EstimateResult)
    (st2 : CacheState) (n : Nat)
    (h : estimate env p specs st now = (Except.ok r, st2, n)) :
    r.total_monthly_cost = roundCents (sumMonthly r.breakdown)
    ∧ (∀ i ∈ r.breakdown, i.monthly_cost = i.unit_cost * i.quantity)
    ∧ |r.total_monthly_cost - sumMonthly r.breakdown| ≤ 1 / 200 := by
  obtain ⟨resolved, hres, hr⟩ := estimate_ok_elim env p specs st now r st2 n h
  subst hr
  refine ⟨rfl, ?_, roundCents_dist _⟩
  intro i hi
  exact (priceOrdered_mem env p now resolved st i hi).1

/-- Witness for C1: a concrete storage-only estimate (all adapters down)
returns successfully and its total is the banker's-rounded sum of its
breakdown. -/
theorem estimate_total_rounded_once_witness :
    demoStorageResult.total_monthly_cost = roundCents (sumMonthly demoStorageResult.breakdown) :=
  (estimate_total_rounded_once demoEnvDown .aws demoStorageSpec [] 0
    demoStorageResult demoStorageState demoStorageCalls rfl).1

/-- C2: for every EstimateResult returned by `estimate`, the annual total
equals the monthly total multiplied by twelve, exactly. -/
theorem estimate_annual_exactly_twelve_months (env : AdapterEnv) (p : CloudProvider)
    (specs : List ResourceSpec) (st : CacheState) (now : Nat) (r : EstimateResult)
    (st2 : CacheState) (n : Nat)
    (h : estimate env p specs st now = (Except.ok r, st2, n)) :
    r.total_annual_cost = r.total_monthly_cost * 12 := by
  obtain ⟨resolved, hres, hr⟩ := estimate_ok_elim env p specs st now r st2 n h
  subst hr
  rfl

/-- Witness for C2: the concrete storage-only estimate has an annual total
of exactly twelve monthly totals. -/
theorem estimate_annual_exactly_twelve_months_witness :
    demoStorageResult.total_annual_cost = demoStorageResult.total_monthly_cost * 12 :=
  estimate_annual_exactly_twelve_months demoEnvDown .aws demoStorageSpec [] 0
    demoStorageResult demoStorageState demoStorageCalls rfl

/-- C7: within one EstimateResult the breakdown is ordered by the fixed
spec-kind order (compute, storage, database, network, load balancer) and
never by call-completion order, zero-quantity specs are skipped entirely
rather than emitted as zero-priced line items, and the number of line items
is exactly the number of non-zero-quantity specs; `estimate` is a pure
function of its inputs, so the result is deterministic. -/
theorem estimate_breakdown_order_and_skip (env : AdapterEnv) (p : CloudProvider)
    (specs : List ResourceSpec) (st : CacheState) (now : Nat) (r : EstimateResult)
    (st2 : CacheState) (n : Nat)
    (h : estimate env p specs st now = (Except.ok r, st2, n)) :
    r.breakdown.Pairwise (fun i j => kindRank i.resource_kind ≤ kindRank j.resource_kind)
    ∧ (∀ i ∈ r.breakdown, i.quantity ≠ 0)
    ∧ r.breakdown.length
        = ((orderedSpecs specs).filter (fun s => decide (quantityEquivalent s ≠ 0))).length := by
  obtain ⟨resolved, hres, hr⟩ := estimate_ok_elim env p specs st now r st2 n h
  subst hr
  refine ⟨?_, ?_, ?_⟩
  · have hsub := priceOrdered_kinds_sublist env p now resolved st
    have hfst := resolveAll_ok_fst p _ resolved hres
    have hkinds : resolved.map (fun x => kindOf x.1) = (orderedSpecs specs).map kindOf := by
      rw [← hfst, List.map_map]
      rfl
    rw [hkinds] at hsub
    have hord : ((orderedSpecs specs).map kindOf).Pairwise
        (fun a b => kindRank a ≤ kindRank b) :=
      List.pairwise_map.mpr (orderedSpecs_pairwise specs)
    have hmap : ((priceOrdered env p now resolved st).1.map
        (fun i => i.resource_kind)).Pairwise (fun a b => kindRank a ≤ kindRank b) :=
      hord.sublist hsub
    exact @pairwise_unmap CostLineItem ResourceKind (fun a b => kindRank a ≤ kindRank b)
      (fun i => i.resource_kind) (priceOrdered env p now resolved st).1 hmap
  · intro i hi
    exact (priceOrdered_mem env p now resolved st i hi).2
  · have hlen := priceOrdered_length env p now resolved st
    have hfst := resolveAll_ok_fst p _ resolved hres
    rw [hlen]
    have : (orderedSpecs specs).filter (fun s => decide (quantityEquivalent s ≠ 0))
        = (resolved.filter (fun x => decide (quantityEquivalent x.1 ≠ 0))).map Prod.fst := by
      rw [← hfst, List.filter_map]
      rfl
    rw [this, List.length_map]

/-- Witness for C7: the concrete storage-only estimate yields exactly one
line item (its single non-zero-quantity spec). -/
theorem estimate_breakdown_order_and_skip_witness :
    demoStorageResult.breakdown.length = 1 := by
  have h := (estimate_breakdown_order_and_skip demoEnvDown .aws demoStorageSpec [] 0
    demoStorageResult demoStorageState demoStorageCalls rfl).2.2
  exact h.trans rfl

/-- C3: for every ComparisonResult returned by `compare`, the cheapest
provider is the provider of an estimate of minimum monthly total, the
potential savings equal the maximum total minus the minimum total (the
clamp to nonnegative never binds) and are nonnegative, and when all
providers tie the savings are zero and the cheapest provider is aws, the
lexicographically-first provider identifier. -/
theorem compare_cheapest_and_savings (env : AdapterEnv) (specs : List ResourceSpec)
    (st : CacheState) (now : Nat) (r : ComparisonResult) (st2 : CacheState) (n : Nat)
    (h : compare env specs st now = (Except.ok r, st2, n)) :
    (∃ e ∈ r.estimates, e.provider = r.cheapest_provider
      ∧ ∀ x ∈ r.estimates, e.total_monthly_cost ≤ x.total_monthly_cost)
    ∧ r.potential_savings = maxTotalOf r.estimates - minTotalOf r.estimates
    ∧ 0 ≤ r.potential_savings
    ∧ (∀ t : ℚ, (∀ x ∈ r.estimates, x.total_monthly_cost = t) →
        r.potential_savings = 0 ∧ r.cheapest_provider = CloudProvider.aws)
    ∧ (∀ p : CloudProvider, CloudProvider.aws = p ∨
        List.Lex (· < ·) (providerName CloudProvider.aws).data (providerName p).data) := by
  obtain ⟨e1, e2, e3, hr, hp1, hp2, hp3⟩ := compare_ok_elim env specs st now r st2 n h
  subst hr
  refine ⟨?_, ?_, ?_, ?_, ?_⟩
  · obtain ⟨e, hmem, hprov, hmin⟩ := cheapest3 e1 e2 e3
    exact ⟨e, hmem, hprov, hmin⟩
  · exact savingsOf3 e1 e2 e3
  · exact le_max_right _ 0
  · intro t ht
    have h1 : e1.total_monthly_cost = t := ht e1 (by simp [mkComparison])
    have h2 : e2.total_monthly_cost = t := ht e2 (by simp [mkComparison])
    have h3 : e3.total_monthly_cost = t := ht e3 (by simp [mkComparison])
    constructor
    · show savingsOf [e1, e2, e3] = 0
      rw [savingsOf3, maxTotalOf3, minTotalOf3, h1, h2, h3]
      simp
    · show cheapestOf [e1, e2, e3] = CloudProvider.aws
      rw [cheapest3_tie e1 e2 e3 t h1 h2 h3, hp1]
  · intro p
    cases p
    · exact Or.inl rfl
    · exact Or.inr (by decide)
    · exact Or.inr (by decide)

/-- Witness for C3: a concrete comparison (all adapters down, empty spec
list) returns successfully and its savings equal max total minus min total. -/
theorem compare_cheapest_and_savings_witness :
    demoCmp.potential_savings = maxTotalOf demoCmp.estimates - minTotalOf demoCmp.estimates :=
  (compare_cheapest_and_savings demoEnvDown [] [] 0 demoCmp demoCmpState demoCmpCalls rfl).2.1

/-- C4: `get_price` is a total function — it never fails and always returns
a UnitPrice — and whenever the adapter call is actually made (no fresh cache
entry) and fails, the returned price (stale cached entry or static
reference price) has `is_live = false`. -/
theorem get_price_fallback_not_live (env : AdapterEnv) (st : CacheState) (now : Nat)
    (p : CloudProvider) (rk : ResourceKind) (sku : String)
    (hfail : env p rk sku = none)
    (hmiss : cacheFresh st now (p, sku) = false) :
    ((get_price env st now p rk sku).1).is_live = false := by
  unfold get_price
  unfold cacheFresh at hmiss
  cases hfind : cacheFind st (p, sku) with
  | none =>
    simp only [refreshPrice, hfail]
    rfl
  | some e =>
    rw [hfind] at hmiss
    simp only [decide_eq_false_iff_not, not_lt] at hmiss
    dsimp only
    rw [if_neg (not_lt.mpr hmiss)]
    simp only [refreshPrice, hfail]
    split_ifs <;> rfl

/-- Witness for C4: a concrete cache miss with a failing adapter yields a
price tagged not-live. -/
theorem get_price_fallback_not_live_witness :
    ((get_price demoEnvDown [] 0 CloudProvider.aws ResourceKind.storage "sku").1).is_live
      = false :=
  get_price_fallback_not_live demoEnvDown [] 0 CloudProvider.aws ResourceKind.storage
    "sku" rfl rfl

/-- C5: `resolve_sku` is a pure static-table lookup that succeeds for every
syntactically valid ResourceSpec on every provider, and when any spec has
an unknown or invalid size, class, type or tier, `estimate` fails with an
InvalidSpecError and makes zero adapter invocations — validation happens
before any upstream call. -/
theorem resolve_sku_total_and_fail_fast :
    (∀ (p : CloudProvider) (s : ResourceSpec), specValid s = true →
      ∃ sku, resolve_sku p s = Except.ok sku)
    ∧ ∀ (env : AdapterEnv) (p : CloudProvider) (specs : List ResourceSpec)
        (st : CacheState) (now : Nat),
        (∃ s ∈ specs, specValid s = false) →
          (∃ e, (estimate env p specs st now).1 = Except.error e)
          ∧ (estimate env p specs st now).2.2 = 0 := by
  refine ⟨resolve_sku_ok_of_valid, ?_⟩
  intro env p specs st now ⟨s, hs, hv⟩
  obtain ⟨e, he⟩ :=
    resolveAll_error_of_invalid p (orderedSpecs specs) s (mem_orderedSpecs hs) hv
  have herr : (estimate env p specs st now).1 = Except.error e :=
    (estimate_error_iff env p specs st now e).mpr he
  exact ⟨⟨e, herr⟩, estimate_error_count env p specs st now e herr⟩

/-- Witness for C5: the Scenario D spec (compute size "nonexistent") makes
`estimate` fail with an InvalidSpecError on the size field while making
zero adapter invocations. -/
theorem resolve_sku_total_and_fail_fast_witness :
    (estimate demoEnvDown CloudProvider.aws demoBadSpec [] 0).1
      = Except.error ⟨"size", "unknown compute size: nonexistent"⟩
    ∧ (estimate demoEnvDown CloudProvider.aws demoBadSpec [] 0).2.2 = 0 :=
  ⟨rfl, (resolve_sku_total_and_fail_fast.2 demoEnvDown CloudProvider.aws demoBadSpec [] 0
    ⟨ResourceSpec.compute "nonexistent" 1 730, by decide, by decide⟩).2⟩

/-- C6: `compare` invokes `estimate` once per provider; any successful
ComparisonResult contains exactly three EstimateResults, one per provider
in provider order, and if any one provider's estimate fails the whole
comparison fails rather than omitting that provider. -/
theorem compare_three_or_fail :
    (∀ (env : AdapterEnv) (specs : List ResourceSpec) (st : CacheState) (now : Nat)
        (r : ComparisonResult) (st2 : CacheState) (n : Nat),
      compare env specs st now = (Except.ok r, st2, n) →
        r.estimates.length = 3
        ∧ r.estimates.map (fun e => e.provider) = providers)
    ∧ ∀ (env : AdapterEnv) (specs : List ResourceSpec) (st st0 : CacheState) (now : Nat)
        (p : CloudProvider) (e : InvalidSpecError),
        (estimate env p specs st0 now).1 = Except.error e →
          ∃ e2, (compare env specs st now).1 = Except.error e2 := by
  constructor
  · intro env specs st now r st2 n h
    obtain ⟨e1, e2, e3, hr, hp1, hp2, hp3⟩ := compare_ok_elim env specs st now r st2 n h
    subst hr
    exact ⟨rfl, by simp [mkComparison, providers, hp1, hp2, hp3]⟩
  · intro env specs st st0 now p e h
    have hres : resolveAll p (orderedSpecs specs) = Except.error e :=
      (estimate_error_iff env p specs st0 now e).mp h
    have hresa : resolveAll CloudProvider.aws (orderedSpecs specs) = Except.error e :=
      resolveAll_error_indep p CloudProvider.aws (orderedSpecs specs) e hres
    have ha : (estimate env CloudProvider.aws specs st now).1 = Except.error e :=
      (estimate_error_iff env CloudProvider.aws specs st now e).mpr hresa
    refine ⟨e, ?_⟩
    simp only [compare]
    rw [ha]
    cases (estimate env CloudProvider.azure specs
        (estimate env CloudProvider.aws specs st now).2.1 now).1 <;>
      cases (estimate env CloudProvider.gcp specs
        (estimate env CloudProvider.azure specs
          (estimate env CloudProvider.aws specs st now).2.1 now).2.1 now).1 <;>
      rfl

/-- Witness for C6: the concrete successful comparison carries exactly
three estimates, and the Scenario D spec list makes the whole comparison
fail. -/
theorem compare_three_or_fail_witness :
    demoCmp.estimates.length = 3
    ∧ ∃ e2, (compare demoEnvDown demoBadSpec [] 0).1 = Except.error e2 :=
  ⟨(compare_three_or_fail.1 demoEnvDown [] [] 0 demoCmp demoCmpState demoCmpCalls rfl).1,
    compare_three_or_fail.2 demoEnvDown demoBadSpec [] [] 0 CloudProvider.aws
      ⟨"size", "unknown compute size: nonexistent"⟩ rfl⟩

/-- C8: when N callers concurrently request the same uncached key, the
single-flight discipline triggers exactly one adapter invocation, and the
completion of that one fetch fans its price out to all N waiters.  The
events are atomic because spec section 5 serializes all cache mutations
per key. -/
theorem cache_single_flight (n : Nat) (k : CloudProvider × String) (price : UnitPrice)
    (hn : 1 ≤ n) :
    (runFlight emptyFlight (requestBurst n k ++ [CacheEvent.complete k price])).adapterCalls = 1
    ∧ ∀ w, w < n →
        (w, price) ∈
          (runFlight emptyFlight (requestBurst n k ++ [CacheEvent.complete k price])).delivered := by
  have hb := burst_state k n hn
  have hrun : runFlight emptyFlight (requestBurst n k ++ [CacheEvent.complete k price])
      = stepFlight (runFlight emptyFlight (requestBurst n k)) (CacheEvent.complete k price) := by
    unfold runFlight
    rw [List.foldl_append]
    rfl
  rw [hrun, hb]
  have hfind : flightFind [(k, (List.range n).reverse)] k = some (List.range n).reverse := by
    simp [flightFind]
  constructor
  · simp [stepFlight, hfind]
  · intro w hw
    simp only [stepFlight, hfind]
    simp only [List.append_nil]
    exact List.mem_map.mpr ⟨w, by simp [List.mem_reverse, List.mem_range, hw], rfl⟩

/-- Witness for C8: three concurrent requests for one concrete key cause
exactly one adapter invocation and the fetched price reaches waiter 0. -/
theorem cache_single_flight_witness :
    (runFlight emptyFlight
        (requestBurst 3 demoKey ++ [CacheEvent.complete demoKey demoPrice])).adapterCalls = 1
    ∧ (0, demoPrice) ∈
        (runFlight emptyFlight
          (requestBurst 3 demoKey ++ [CacheEvent.complete demoKey demoPrice])).delivered :=
  ⟨(cache_single_flight 3 demoKey demoPrice (by decide)).1,
    (cache_single_flight 3 demoKey demoPrice (by decide)).2 0 (by decide)⟩

/-- C9: for every provider and form state, buildEstimateRequest returns a
FullEstimateRequest that always carries the top-level provider,
data_transfer_gb and include_load_balancer fields, and contains the
compute (respectively storage, database) sub-request exactly when
includeCompute (includeStorage, includeDatabase) is set, each sub-request
carrying the top-level provider. -/
theorem frontend_buildEstimateRequest_shape (provider : CloudProvider)
    (f : Frontend.FormState) :
    (Frontend.buildEstimateRequest provider f).provider = provider
    ∧ (Frontend.buildEstimateRequest provider f).data_transfer_gb = f.dataTransferGb
    ∧ (Frontend.buildEstimateRequest provider f).include_load_balancer = f.includeLoadBalancer
    ∧ (Frontend.buildEstimateRequest provider f).compute
        = (if f.includeCompute = true then
            some ⟨provider, f.computeSize, f.computeHours, f.computeQuantity⟩ else none)
    ∧ (Frontend.buildEstimateRequest provider f).storage
        = (if f.includeStorage = true then
            some ⟨provider, f.storageType, f.storageSize⟩ else none)
    ∧ (Frontend.buildEstimateRequest provider f).database
        = (if f.includeDatabase = true then
            some ⟨provider, f.databaseType, f.databaseHours⟩ else none) := by
  cases hc : f.includeCompute <;> cases hs : f.includeStorage <;>
    cases hd : f.includeDatabase <;>
    simp [Frontend.buildEstimateRequest, hc, hs, hd]

/-- C10: compareProviders serializes only compute_size, storage_gb,
storage_type and hours_per_month into the query string, in that order, and
omits every parameter whose value is falsy — an absent parameter, a zero
storage_gb or a zero hours_per_month is not transmitted — and never sends
any database configuration. -/
theorem frontend_compareQuery_only_four_params (params : Frontend.CompareParams) :
    ((Frontend.compareQueryParams params).map Prod.fst).Sublist
        ["compute_size", "storage_gb", "storage_type", "hours_per_month"]
    ∧ (params.storage_gb = some 0 →
        "storage_gb" ∉ (Frontend.compareQueryParams params).map Prod.fst)
    ∧ (params.hours_per_month = some 0 →
        "hours_per_month" ∉ (Frontend.compareQueryParams params).map Prod.fst)
    ∧ (params.compute_size = none →
        "compute_size" ∉ (Frontend.compareQueryParams params).map Prod.fst)
    ∧ (params.storage_type = none →
        "storage_type" ∉ (Frontend.compareQueryParams params).map Prod.fst)
    ∧ ∀ kv ∈ Frontend.compareQueryParams params,
        kv.1 = "compute_size" ∨ kv.1 = "storage_gb"
          ∨ kv.1 = "storage_type" ∨ kv.1 = "hours_per_month" := by
  obtain ⟨cs, sg, stp, hm⟩ := params
  cases cs <;> cases sg <;> cases stp <;> cases hm <;>
    · simp only [Frontend.compareQueryParams]
      first
        | (split_ifs <;> refine ⟨?_, ?_, ?_, ?_, ?_, ?_⟩ <;> simp_all <;> decide)
        | (refine ⟨?_, ?_, ?_, ?_, ?_, ?_⟩ <;> simp_all <;> decide)

/-- Witness for C10: with storage_gb and hours_per_month both zero, neither
key is serialized. -/
theorem frontend_compareQuery_only_four_params_witness :
    "storage_gb" ∉ (Frontend.compareQueryParams demoParams).map Prod.fst
    ∧ "hours_per_month" ∉ (Frontend.compareQueryParams demoParams).map Prod.fst :=
  ⟨(frontend_compareQuery_only_four_params demoParams).2.1 rfl,
    (frontend_compareQuery_only_four_params demoParams).2.2.1 rfl⟩

end CloudCost
